import Mathlib

/-!
Shallow embedding of the exercise-grading and progress-tracking logic of the
`nativespeak_api` repository (`courses/api_views.py`, `courses/models.py`,
`courses/serializers.py`).

Python strings are modelled as `List Char`.  Python `str.strip` is modelled as
trimming the four ASCII whitespace characters recognised by `Char.isWhitespace`
(space, tab, newline, carriage return); `str.lower` as character-wise
`Char.toLower`; `str.split(',')` as splitting on every comma, keeping empty
pieces (so splitting the empty string yields one empty piece, as in Python).
Database ids and timestamps are natural numbers.  Rational numbers stand in
for Python floats, so arithmetic facts below are exact-arithmetic readings of
the source's float expressions.
-/

/-- Model of a Python `str`: a list of characters. -/
abbrev Str := List Char

/-- The character list of a string literal (used to write concrete inputs). -/
def toStr (s : String) : Str := s.data

/-- Python `str.lower()` (character-wise, ASCII). -/
def pyLower (s : Str) : Str := s.map Char.toLower

/-- Python `str.strip()`: drop leading and trailing whitespace. -/
def pyStrip (s : Str) : Str :=
  ((s.dropWhile Char.isWhitespace).reverse.dropWhile Char.isWhitespace).reverse

/-- Python `str.split(',')`: split on every comma, keeping empty pieces;
splitting the empty string yields `[[]]` (Python: `"".split(',') == ['']`). -/
def splitComma : Str → List Str
  | [] => [[]]
  | c :: rest =>
    let r := splitComma rest
    if c = ',' then [] :: r
    else
      match r with
      | [] => [[c]]
      | h :: t => (c :: h) :: t

/-- Decimal digit run to a natural number, `none` when empty or non-digit. -/
def digitsToNat (ds : Str) : Option Nat :=
  if ds = [] then none
  else if ds.all Char.isDigit then
    some (ds.foldl (fun acc c => acc * 10 + (c.toNat - '0'.toNat)) 0)
  else none

/-- Python `int(s)` on a string: strip whitespace, optional sign, decimal
digits; `none` models `ValueError`.  (Underscore digit separators, accepted by
Python 3, are not modelled; no claim input uses them.) -/
def pyInt (s : Str) : Option Int :=
  match pyStrip s with
  | '+' :: ds => (digitsToNat ds).map Int.ofNat
  | '-' :: ds => (digitsToNat ds).map fun n => -(n : Int)
  | ds => (digitsToNat ds).map Int.ofNat

/-- Python `str(n)` for a natural number. -/
def natToStr (n : Nat) : Str := Nat.toDigits 10 n

/-! ### Data model (`courses/models.py`) -/

/-- `Answer` row (`models.py`): an option of a multiple-choice / true-false
question.  `Meta.ordering = ['order']`. -/
structure Answer where
  id : Nat
  answer_text : Str
  is_correct : Bool
  order : Int
deriving DecidableEq

/-- `FillBlankAnswer` row (`models.py`): the answer key of a fill-blank
question; `alternative_answers` is a comma-separated text, blank by default;
`case_sensitive` defaults to `False`. -/
structure FillBlankAnswer where
  correct_answer : Str
  alternative_answers : Str
  case_sensitive : Bool
deriving DecidableEq

/-- `Question` row (`models.py`).  `answers` models the related queryset
`question.answers` in its default order (`Answer.Meta.ordering = ['order']`);
`fill_blank_answer` is the optional one-to-one answer key (`none` models
`FillBlankAnswer.DoesNotExist`). -/
structure Question where
  id : Nat
  points : Nat
  answers : List Answer
  fill_blank_answer : Option FillBlankAnswer
deriving DecidableEq

/-- `Theme` row, reduced to its foreign key to the owning `Unit`. -/
structure Theme where
  unit_id : Nat
deriving DecidableEq

/-- `Topic` row, reduced to its foreign key to the owning `Theme`. -/
structure Topic where
  theme : Theme
deriving DecidableEq

/-- `Exercise` row (`models.py`): type tag kept as the source's string
(`'fill_blank'`, `'multiple_choice'`, `'true_false'`, ...), questions in their
default order, and the `topic` foreign key chain used by progress tracking. -/
structure Exercise where
  id : Nat
  exercise_type : Str
  topic : Topic
  questions : List Question
deriving DecidableEq

/-- The unit an exercise belongs to: `exercise.topic.theme.unit`. -/
def unitOf (e : Exercise) : Nat := e.topic.theme.unit_id

/-- `StudentProgress` row (`models.py`): one per (student, unit);
`completed_at` is nullable. -/
structure StudentProgress where
  student : Nat
  unit : Nat
  completion_percentage : Nat
  started_at : Nat
  completed_at : Option Nat
deriving DecidableEq

/-- `ExerciseSubmission` row (`models.py`), with the referenced exercise
embedded by value (standing for the `exercise` foreign key). -/
structure ExerciseSubmission where
  student : Nat
  exercise : Exercise
  score : Nat
  max_score : Nat
  time_spent : Int
deriving DecidableEq

/-! ### Grading (`ExerciseViewSet` in `courses/api_views.py`) -/

/-- `_check_fill_blank` (`api_views.py`): strip the stored correct answer;
split the stored alternatives on commas, strip each piece and keep only the
non-empty ones; when the key is not case-sensitive, lower-case the student
answer, the correct answer and every alternative; correct when the student
answer equals the correct answer or is among the alternatives.  The student
answer itself is never stripped.  `none` key models the caught
`FillBlankAnswer.DoesNotExist`. -/
def check_fill_blank (question : Question) (student_answer : Str) : Bool :=
  match question.fill_blank_answer with
  | none => false
  | some key =>
    let correct := pyStrip key.correct_answer
    let alternatives :=
      ((splitComma key.alternative_answers).map pyStrip).filter (fun a => a ≠ [])
    if key.case_sensitive then
      student_answer == correct || alternatives.contains student_answer
    else
      pyLower student_answer == pyLower correct
        || (alternatives.map pyLower).contains (pyLower student_answer)

/-- `_check_multiple_choice` (`api_views.py`): `Answer.objects.get(id=int(student_answer))`
looks the id up in the whole `Answer` table (`all_answers`), not among the
question's own options — the `question` parameter of the source function is
unused.  A `ValueError` from `int` or a missing row yields `false`. -/
def check_multiple_choice (all_answers : List Answer) (student_answer : Str) : Bool :=
  match pyInt student_answer with
  | none => false
  | some n =>
    match all_answers.find? (fun a => (a.id : Int) == n) with
    | none => false
    | some a => a.is_correct

/-- `_check_true_false` (`api_views.py`):
`question.answers.filter(is_correct=True).first()` — the first flagged-correct
option of the queryset in its default order-by-`order`; compare the student
answer case-insensitively with its text; no flagged-correct option means
incorrect. -/
def check_true_false (question : Question) (student_answer : Str) : Bool :=
  match question.answers.find? (fun a => a.is_correct) with
  | none => false
  | some a => pyLower student_answer == pyLower a.answer_text

/-- Dispatch on `exercise.exercise_type` as in the `submit` action; any other
type tag leaves `is_correct = False`. -/
def gradeQuestion (exercise_type : Str) (all_answers : List Answer)
    (q : Question) (student_answer : Str) : Bool :=
  if exercise_type == toStr "fill_blank" then check_fill_blank q student_answer
  else if exercise_type == toStr "multiple_choice" then
    check_multiple_choice all_answers student_answer
  else if exercise_type == toStr "true_false" then check_true_false q student_answer
  else false

/-- One entry of the `responses` list built by `submit` (also the data of one
`QuestionResponse` row). -/
structure ResponseData where
  question : Question
  student_answer : Str
  is_correct : Bool
  points_earned : Nat
deriving DecidableEq

/-- `answers.get(str(question.id), '')` on the validated answers mapping:
first value whose key equals the decimal string of the id, defaulting to the
empty string. -/
def lookupAnswer (answers : List (Str × Str)) (key : Str) : Option Str :=
  (answers.find? (fun p => p.1 == key)).map (fun p => p.2)

/-- The per-question loop of `submit`: one `ResponseData` per question of the
exercise, in order; a missing answer is the empty string. -/
def gradeResponses (ex : Exercise) (all_answers : List Answer)
    (answers : List (Str × Str)) : List ResponseData :=
  ex.questions.map fun q =>
    let sa := (lookupAnswer answers (natToStr q.id)).getD []
    let ok := gradeQuestion ex.exercise_type all_answers q sa
    ⟨q, sa, ok, if ok then q.points else 0⟩

/-- `max_score`: sum of the point values of all questions. -/
def maxScoreOf (ex : Exercise) : Nat :=
  ex.questions.foldl (fun acc q => acc + q.points) 0

/-- `total_score`: sum of the earned points over the responses. -/
def totalScoreOf (responses : List ResponseData) : Nat :=
  responses.foldl (fun acc r => acc + r.points_earned) 0

/-- `round(x, 2)` in exact arithmetic: round to the nearest multiple of
`1/100` (`Mathlib.round`, half away from zero upward; the tie convention is
irrelevant to the claims below). -/
def round2 (x : ℚ) : ℚ := ((round (x * 100) : ℤ) : ℚ) / 100

/-- The grading result returned by `submit`. -/
structure SubmitResult where
  score : Nat
  max_score : Nat
  percentage : ℚ
  responses : List ResponseData
deriving DecidableEq

/-- The pure grading computation of the `submit` action: grade every question,
accumulate scores, and compute
`percentage = round(score / max_score * 100, 2) if max_score > 0 else 0`. -/
def pySubmit (ex : Exercise) (all_answers : List Answer)
    (answers : List (Str × Str)) : SubmitResult :=
  let responses := gradeResponses ex all_answers answers
  let total_score := totalScoreOf responses
  let max_score := maxScoreOf ex
  let percentage : ℚ :=
    if 0 < max_score then (total_score : ℚ) / (max_score : ℚ) * 100 else 0
  ⟨total_score, max_score, round2 percentage, responses⟩

/-! ### Persistence of a submission (`submit`, lines 205-225)

The source runs in autocommit mode: there is no `transaction.atomic` in the
view and no `ATOMIC_REQUESTS` in `settings.py`, so each `objects.create` call
commits on its own.  The write sequence of one grading call is one
`ExerciseSubmission` create followed by one `QuestionResponse` create per
response; a persistence failure right before the `(k+1)`-st write leaves
exactly the first `k` writes persisted. -/

/-- One database write performed by `submit`. -/
inductive DbWrite where
  | submission (s : ExerciseSubmission)
  | response (r : ResponseData)
deriving DecidableEq

/-- The ordered write sequence of one grading call: the `ExerciseSubmission`
create, then one `QuestionResponse` create per response, in response order. -/
def submitWrites (ex : Exercise) (all_answers : List Answer)
    (answers : List (Str × Str)) (student : Nat) (time_spent : Int) : List DbWrite :=
  let res := pySubmit ex all_answers answers
  DbWrite.submission ⟨student, ex, res.score, res.max_score, time_spent⟩
    :: res.responses.map DbWrite.response

/-- The writes already committed when a persistence failure aborts the call
right before its `(k+1)`-st write (autocommit: earlier creates stay). -/
def persistedAfter (writes : List DbWrite) (k : Nat) : List DbWrite :=
  writes.take k

/-! ### Progress tracking (`_update_progress`, `api_views.py` lines 294-324) -/

/-- `Exercise.objects.filter(topic__theme__unit=unit).count()`. -/
def totalExercises (all_exercises : List Exercise) (unit : Nat) : Nat :=
  (all_exercises.filter (fun e => unitOf e == unit)).length

/-- `ExerciseSubmission.objects.filter(student=student,
exercise__topic__theme__unit=unit).values('exercise').distinct().count()`:
the number of distinct exercise ids among the student's submissions in the
unit. -/
def completedExercises (submissions : List ExerciseSubmission)
    (student unit : Nat) : Nat :=
  (((submissions.filter fun s =>
      s.student == student && unitOf s.exercise == unit).map
        fun s => s.exercise.id).dedup).length

/-- `StudentProgress.objects.get_or_create(student=student, unit=unit)`: the
existing row, or a fresh one with percentage 0, `started_at` now
(`auto_now_add`), and no completion timestamp. -/
def getOrCreateProgress (existing : Option StudentProgress)
    (student unit now : Nat) : StudentProgress :=
  existing.getD ⟨student, unit, 0, now, none⟩

/-- `_update_progress` (`api_views.py`): get-or-create the progress row;
count the unit's exercises; return early when there are none; otherwise set
`completion_percentage = int((completed / total) * 100)` (exact arithmetic:
`completed * 100 / total` with truncating division) and stamp `completed_at`
only when the percentage is 100 and no stamp is present. -/
def updateProgress (all_exercises : List Exercise)
    (submissions : List ExerciseSubmission) (student unit : Nat)
    (existing : Option StudentProgress) (now : Nat) : StudentProgress :=
  let progress := getOrCreateProgress existing student unit now
  let total := totalExercises all_exercises unit
  if total = 0 then progress
  else
    let completed := completedExercises submissions student unit
    let percentage := completed * 100 / total
    { progress with
        completion_percentage := percentage
        completed_at :=
          if percentage = 100 ∧ progress.completed_at = none then some now
          else progress.completed_at }

/-! ### Input validation (`ExerciseSubmissionCreateSerializer`,
`courses/serializers.py` lines 238-255)

JSON payload values are modelled by `JsonVal`.  Floats have no constructor in
`JsonVal`, so payloads carrying float values are outside the model (DRF would
coerce them much as it does integers); string lengths are unbounded, so
`IntegerField.MAX_STRING_LENGTH` never triggers and is not modelled.

`CharField()` is lenient with numerics: its `to_internal_value` accepts a
string, an int or a float (but not a bool) and coerces with `str()`, then
strips surrounding whitespace (`trim_whitespace=True` default);
`run_validation` rejects values that are blank after stripping
(`allow_blank=False` default).  `IntegerField()` runs
`int(re.sub(r'\.0*\s*$', '', str(data)))`: it accepts an integer, and a
string that `int` parses after a trailing `.0...`-style decimal suffix is
stripped; it has no `min_value`, so any sign is accepted.  On a bool, a
dict, a list or null the `str()` image never parses, so both fields fail.
A failed field makes `is_valid` raise `ValidationError`, modelled by
`none`. -/

/-- A JSON value of the request payload. -/
inductive JsonVal where
  | str (s : Str)
  | int (n : Int)
  | dict (entries : List (Str × JsonVal))
  | list (items : List JsonVal)
  | bool (b : Bool)
  | null

/-- The three fields of the submission payload, each present or absent. -/
structure SubmissionPayload where
  exercise_id : Option JsonVal
  answers : Option JsonVal
  time_spent : Option JsonVal

/-- The serializer's `validated_data`. -/
structure ValidatedSubmission where
  exercise_id : Int
  answers : List (Str × Str)
  time_spent : Option Int
deriving DecidableEq

/-- Python `str(n)` for an integer. -/
def intToStr (n : Int) : Str :=
  match n with
  | .ofNat m => natToStr m
  | .negSucc m => '-' :: natToStr (m + 1)

/-- Whether a string is one whole match of DRF's `re_decimal` pattern
`\.0*\s*$`: a dot, then zeros, then whitespace, to the end. -/
def isDotZeroSuffix (s : Str) : Bool :=
  match s with
  | '.' :: rest => (rest.dropWhile fun c => c = '0').all Char.isWhitespace
  | _ => false

/-- `re.sub(r'\.0*\s*$', '', s)`: drop the leftmost suffix formed of a dot,
zeros and trailing whitespace, when there is one (so `"3.0"` becomes `"3"`
while `"3.5"` is unchanged). -/
def reDecimalSub : Str → Str
  | [] => []
  | c :: rest =>
    if isDotZeroSuffix (c :: rest) then [] else c :: reDecimalSub rest

/-- `serializers.CharField()` on one value: a string — stripped, and
rejected when blank after stripping — or an int coerced with `str()` (whose
decimal image is never blank); bools and non-scalar values fail. -/
def validateCharField (v : JsonVal) : Option Str :=
  match v with
  | .str s => if pyStrip s = [] then none else some (pyStrip s)
  | .int n => some (intToStr n)
  | _ => none

/-- `serializers.IntegerField()` on one value:
`int(re.sub(r'\.0*\s*$', '', str(data)))` — an integer passes through, a
string parses after its `.0...` decimal suffix (if any) is stripped, and the
`str()` image of a bool, dict, list or null never parses. -/
def validateIntegerField (v : JsonVal) : Option Int :=
  match v with
  | .int n => some n
  | .str s => pyInt (reDecimalSub s)
  | _ => none

/-- Validate every value of a dict with `CharField`, entry by entry; one
failing value fails the whole field. -/
def validateAnswersList : List (Str × JsonVal) → Option (List (Str × Str))
  | [] => some []
  | p :: rest =>
    match validateCharField p.2, validateAnswersList rest with
    | some s, some l => some ((p.1, s) :: l)
    | _, _ => none

/-- `serializers.DictField(child=serializers.CharField())`: a JSON object all
of whose values pass `CharField`. -/
def validateAnswers (v : JsonVal) : Option (List (Str × Str)) :=
  match v with
  | .dict entries => validateAnswersList entries
  | _ => none

/-- `ExerciseSubmissionCreateSerializer.is_valid(raise_exception=True)`:
`exercise_id` required, an integer naming an existing exercise
(`validate_exercise_id`); `answers` required, a dict of strings; `time_spent`
optional, an integer.  `none` models the raised `ValidationError`. -/
def validatePayload (exercise_ids : List Nat) (p : SubmissionPayload) :
    Option ValidatedSubmission :=
  match p.exercise_id with
  | none => none
  | some ev =>
    match validateIntegerField ev with
    | none => none
    | some eid =>
      if exercise_ids.contains eid.toNat ∧ 0 ≤ eid then
        match p.answers with
        | none => none
        | some av =>
          match validateAnswers av with
          | none => none
          | some ans =>
            match p.time_spent with
            | none => some ⟨eid, ans, none⟩
            | some tv =>
              match validateIntegerField tv with
              | none => none
              | some t => some ⟨eid, ans, some t⟩
      else none

/-- Whether a JSON value is a string. -/
def isStrVal (v : JsonVal) : Bool :=
  match v with
  | .str _ => true
  | _ => false

/-- The original claim's notion of a well-formed answers payload: a JSON
object whose values are all strings. -/
def isStringMapping (v : JsonVal) : Bool :=
  match v with
  | .dict entries => entries.all fun p => isStrVal p.2
  | _ => false

/-- A value `CharField` accepts: a string that is not blank after stripping,
or an int (coerced to its decimal string). -/
def isCharAcceptable (v : JsonVal) : Bool :=
  match v with
  | .str s => decide (pyStrip s ≠ [])
  | .int _ => true
  | _ => false

/-- The amended claim's notion of a well-formed answers payload: a JSON
object each of whose values `CharField` accepts. -/
def isAcceptableMapping (v : JsonVal) : Bool :=
  match v with
  | .dict entries => entries.all fun p => isCharAcceptable p.2
  | _ => false

/-- The whole endpoint after authentication: validate the payload first; on
`ValidationError` nothing is graded and nothing is written; otherwise grade
the resolved exercise and emit the write sequence
(`time_spent` defaults to 0 when absent). -/
def submitEndpoint (exercises : List Exercise) (all_answers : List Answer)
    (student : Nat) (p : SubmissionPayload) :
    Option (SubmitResult × List DbWrite) :=
  match validatePayload (exercises.map fun e => e.id) p with
  | none => none
  | some v =>
    match exercises.find? (fun e => (e.id : Int) == v.exercise_id) with
    | none => none
    | some ex =>
      let res := pySubmit ex all_answers v.answers
      some (res, submitWrites ex all_answers v.answers student (v.time_spent.getD 0))

/-! ### Concrete fixtures used by closed theorems -/

/-- Fill-blank key `correct_answer="eat"`, blank alternatives, not
case-sensitive (the model defaults). -/
def fbaEat : FillBlankAnswer := ⟨toStr "eat", [], false⟩

/-- A fill-blank question with key `fbaEat`. -/
def qFillEat : Question := ⟨1, 1, [], some fbaEat⟩

/-- Fill-blank key with alternatives `"have, consume"` (spec's example). -/
def fbaAlt : FillBlankAnswer := ⟨toStr "eat", toStr "have, consume", false⟩

/-- A fill-blank question with key `fbaAlt`. -/
def qFillAlt : Question := ⟨2, 1, [], some fbaAlt⟩

/-- An incorrect option (id 10) belonging to the multiple-choice question. -/
def answerYes : Answer := ⟨10, toStr "Yes", false, 0⟩

/-- A correct option (id 20) belonging to a *different* question. -/
def answerTrue : Answer := ⟨20, toStr "True", true, 0⟩

/-- A multiple-choice question whose only option is `answerYes` (id 10). -/
def mcQuestion : Question := ⟨1, 1, [answerYes], none⟩

/-- The whole `Answer` table: the question's own option plus another
question's correct option. -/
def answerTable : List Answer := [answerYes, answerTrue]

/-- A topic in unit 1. -/
def topic1 : Topic := ⟨⟨1⟩⟩

/-- An exercise of unit 1 with a given id and no questions. -/
def exOfId (i : Nat) : Exercise := ⟨i, toStr "fill_blank", topic1, []⟩

/-- Unit 1 has three exercises (spec's progress scenario). -/
def unitExercises : List Exercise := [exOfId 1, exOfId 2, exOfId 3]

/-- Student 7 submitted exercise 1 twice and exercise 2 once. -/
def unitSubmissions : List ExerciseSubmission :=
  [⟨7, exOfId 1, 0, 0, 0⟩, ⟨7, exOfId 1, 0, 0, 0⟩, ⟨7, exOfId 2, 0, 0, 0⟩]

/-- A progress row with no completion timestamp. -/
def progressFresh : StudentProgress := ⟨7, 1, 0, 0, none⟩

/-- A progress row whose completion timestamp is already set (to 3). -/
def progressDone : StudentProgress := ⟨7, 1, 100, 0, some 3⟩

/-- A fill-blank question with no answer-key row. -/
def fbQuestion1 : Question := ⟨1, 1, [], none⟩

/-- An exercise with exactly one question. -/
def exOneQuestion : Exercise := ⟨1, toStr "fill_blank", topic1, [fbQuestion1]⟩

/-- A true-false question with two flagged-correct options, sorted by
`order`: `"True"` (order 0) before `"False"` (order 1). -/
def tfQuestion : Question :=
  ⟨5, 1, [⟨1, toStr "True", true, 0⟩, ⟨2, toStr "False", true, 1⟩], none⟩

/-- A payload with a valid exercise id, an empty answers dict, and
`time_spent = -5`. -/
def payloadNegative : SubmissionPayload :=
  ⟨some (.int 1), some (.dict []), some (.int (-5))⟩

/-- A payload whose `time_spent` is the non-numeric string `"abc"`. -/
def payloadBadTime : SubmissionPayload :=
  ⟨some (.int 1), some (.dict []), some (.str (toStr "abc"))⟩

/-- A payload whose answers mapping carries the *integer* value 5 — not a
mapping of question-id to string. -/
def payloadIntAnswer : SubmissionPayload :=
  ⟨some (.int 1), some (.dict [(toStr "1", .int 5)]), none⟩

/-! ### Claim C1 -/

/-- Fill-blank grading as claim C1 states it: trim the student answer and the
stored correct answer; split the alternatives on commas and trim each piece
(keeping empty pieces); when not case-sensitive, lower-case all of them;
correct iff the normalized student answer equals the normalized correct answer
or is a member of the normalized alternatives. -/
def fillBlankClaimC1 (question : Question) (student_answer : Str) : Bool :=
  match question.fill_blank_answer with
  | none => false
  | some key =>
    let sa := pyStrip student_answer
    let correct := pyStrip key.correct_answer
    let alternatives := (splitComma key.alternative_answers).map pyStrip
    if key.case_sensitive then
      sa == correct || alternatives.contains sa
    else
      pyLower sa == pyLower correct
        || (alternatives.map pyLower).contains (pyLower sa)

/-- C1 fails on the code at two concrete inputs (key `"eat"`, blank
alternatives, not case-sensitive): the student answer `" eat "` is not
trimmed by `_check_fill_blank`, so it grades incorrect where the claim's
normalization grades it correct; and the empty student answer grades
incorrect although the claim's alternatives set — the comma-split of the
blank alternatives string with each piece trimmed — contains the empty
string. -/
theorem claim_C1_counterexample :
    (check_fill_blank qFillEat (toStr " eat ") = false
      ∧ fillBlankClaimC1 qFillEat (toStr " eat ") = true)
    ∧ (check_fill_blank qFillEat [] = false
      ∧ fillBlankClaimC1 qFillEat [] = true) := by
  decide

/-- C1 (amended): for every fill-blank question with an answer-key row, the
stored correct answer is trimmed, the stored alternatives string is split on
commas with each piece trimmed and pieces that are empty after trimming
discarded, and, when the key is not case-sensitive, the student answer, the
correct answer and every alternative are lower-cased; the question is graded
correct iff the (lower-cased but not trimmed) student answer equals the
normalized correct answer or is a member of the normalized alternatives. -/
theorem claim_C1_theorem (q : Question) (key : FillBlankAnswer) (s : Str)
    (hk : q.fill_blank_answer = some key) :
    check_fill_blank q s = true ↔
      (if key.case_sensitive then
        s = pyStrip key.correct_answer
          ∨ s ∈ ((splitComma key.alternative_answers).map pyStrip).filter
              (fun a => a ≠ [])
      else
        pyLower s = pyLower (pyStrip key.correct_answer)
          ∨ pyLower s ∈ (((splitComma key.alternative_answers).map pyStrip).filter
              (fun a => a ≠ [])).map pyLower) := by
  unfold check_fill_blank
  rw [hk]
  by_cases hc : key.case_sensitive
  · simp [hc, List.elem_iff]
  · simp [hc, List.elem_iff]

/-- C1 witness: `"consume"` matches the key `correct_answer="eat"`,
`alternative_answers="have, consume"` (the spec's alternatives example). -/
theorem claim_C1_witness : check_fill_blank qFillAlt (toStr "consume") = true :=
  (claim_C1_theorem qFillAlt fbaAlt (toStr "consume") rfl).mpr (by decide)

/-! ### Claim C2 -/

/-- Multiple-choice grading as claim C2 states it: the numeric identifier is
looked up among the question's *own* options. -/
def multipleChoiceClaimC2 (question : Question) (student_answer : Str) : Bool :=
  match pyInt student_answer with
  | none => false
  | some n =>
    match question.answers.find? (fun a => (a.id : Int) == n) with
    | none => false
    | some a => a.is_correct

/-- C2: the code looks the submitted id up in the whole `Answer` table, not
among the question's own options.  Submitting `"20"` — the id of a
flagged-correct option of a *different* question — for `mcQuestion` (whose
only option has id 10) grades correct, while the claim's own-options rule
grades it incorrect. -/
theorem claim_C2_theorem :
    check_multiple_choice answerTable (toStr "20") = true
    ∧ multipleChoiceClaimC2 mcQuestion (toStr "20") = false
    ∧ (∀ a ∈ mcQuestion.answers, (a.id : Int) ≠ 20) := by
  decide

/-! ### Claim C3 -/

/-- C3: the progress update counts `total_exercises` as the exercises whose
topic chain leads to the unit, counts `completed_exercises` as the number of
*distinct* exercises of the unit with at least one submission by the student
(a `Finset` cardinality, so repeats count once), returns early leaving an
existing progress row unchanged when `total_exercises = 0`, and otherwise
sets the percentage to `⌊completed / total * 100⌋` by truncation. -/
theorem claim_C3_theorem (all_exercises : List Exercise)
    (submissions : List ExerciseSubmission) (student unit now : Nat)
    (p0 : StudentProgress) :
    totalExercises all_exercises unit
      = (all_exercises.filter fun e => unitOf e == unit).length
    ∧ completedExercises submissions student unit
      = ((submissions.filter fun s =>
            s.student == student && unitOf s.exercise == unit).map
              fun s => s.exercise.id).toFinset.card
    ∧ (totalExercises all_exercises unit = 0 →
        updateProgress all_exercises submissions student unit (some p0) now = p0)
    ∧ (totalExercises all_exercises unit ≠ 0 →
        (updateProgress all_exercises submissions student unit
            (some p0) now).completion_percentage
          = Nat.floor ((completedExercises submissions student unit : ℚ)
              / (totalExercises all_exercises unit : ℚ) * 100)) := by
  refine ⟨rfl, (List.card_toFinset _).symm, ?_, ?_⟩
  · intro h
    unfold updateProgress getOrCreateProgress
    simp [h]
  · intro h
    unfold updateProgress getOrCreateProgress
    simp only [h, if_false]
    rw [show ((completedExercises submissions student unit : ℚ)
          / (totalExercises all_exercises unit : ℚ) * 100)
        = ((completedExercises submissions student unit * 100 : ℕ) : ℚ)
          / (totalExercises all_exercises unit : ℚ) by push_cast; ring]
    rw [Nat.floor_div_nat, Nat.floor_natCast]

/-- C3 witness: the spec's scenario — unit 1 has 3 exercises, student 7
submitted 2 distinct ones (one of them twice), so the stored percentage is
the truncated `⌊2/3*100⌋ = 66` and the completion timestamp stays unset. -/
theorem claim_C3_witness :
    (updateProgress unitExercises unitSubmissions 7 1
        (some progressFresh) 5).completion_percentage
      = Nat.floor ((completedExercises unitSubmissions 7 1 : ℚ)
          / (totalExercises unitExercises 1 : ℚ) * 100)
    ∧ (updateProgress unitExercises unitSubmissions 7 1
        (some progressFresh) 5).completion_percentage = 66
    ∧ completedExercises unitSubmissions 7 1 = 2
    ∧ (updateProgress unitExercises unitSubmissions 7 1
        (some progressFresh) 5).completed_at = none :=
  ⟨(claim_C3_theorem unitExercises unitSubmissions 7 1 5 progressFresh).2.2.2
      (by decide),
    by decide, by decide, by decide⟩

/-! ### Claim C4 -/

/-- C4: the completion timestamp is a one-way flag — once set it survives
every later recomputation unchanged; and starting from an unset timestamp it
gets set (to the current time) exactly when the unit has exercises and the
computed percentage is 100. -/
theorem claim_C4_theorem (all_exercises : List Exercise)
    (submissions : List ExerciseSubmission) (student unit now t : Nat)
    (p0 : StudentProgress) :
    (p0.completed_at = some t →
      (updateProgress all_exercises submissions student unit
          (some p0) now).completed_at = some t)
    ∧ (p0.completed_at = none →
        ((updateProgress all_exercises submissions student unit
            (some p0) now).completed_at = some now ↔
          totalExercises all_exercises unit ≠ 0
            ∧ completedExercises submissions student unit * 100
                / totalExercises all_exercises unit = 100)) := by
  constructor
  · intro h
    unfold updateProgress getOrCreateProgress
    by_cases h0 : totalExercises all_exercises unit = 0 <;> simp [h0, h]
  · intro h
    unfold updateProgress getOrCreateProgress
    by_cases h0 : totalExercises all_exercises unit = 0
    · simp [h0, h]
    · by_cases hp : completedExercises submissions student unit * 100
          / totalExercises all_exercises unit = 100 <;>
        simp [h0, h, hp]

/-- C4 witness: a progress row already stamped at time 3 keeps that stamp
through a recomputation at time 5 in which the percentage is again 100
(student 7 completed 2 of the 2 exercises of this unit). -/
theorem claim_C4_witness :
    (updateProgress [exOfId 1, exOfId 2] unitSubmissions 7 1
        (some progressDone) 5).completed_at = some 3 :=
  (claim_C4_theorem [exOfId 1, exOfId 2] unitSubmissions 7 1 5 3
    progressDone).1 rfl

/-! ### Claim C5 -/

/-- C5: the returned percentage is `score / max_score * 100` rounded to two
decimal places, and an exercise with zero questions (`max_score = 0`) yields
percentage 0 with no division performed (the zero branch is taken before any
quotient is formed). -/
theorem claim_C5_theorem (ex : Exercise) (all_answers : List Answer)
    (answers : List (Str × Str)) :
    ((pySubmit ex all_answers answers).max_score = 0 →
      (pySubmit ex all_answers answers).percentage = 0)
    ∧ (0 < (pySubmit ex all_answers answers).max_score →
        (pySubmit ex all_answers answers).percentage =
          round2 (((pySubmit ex all_answers answers).score : ℚ)
            / ((pySubmit ex all_answers answers).max_score : ℚ) * 100)) := by
  unfold pySubmit
  by_cases h : 0 < maxScoreOf ex
  · constructor
    · intro h0
      simp only at h0
      omega
    · intro _
      simp [h]
  · constructor
    · intro _
      simp [h, round2]
    · intro h0
      simp only at h0
      omega

/-- C5 witness: an exercise with zero questions has `max_score = 0` and
percentage 0, with no exception. -/
theorem claim_C5_witness :
    (pySubmit (exOfId 1) [] []).max_score = 0
    ∧ (pySubmit (exOfId 1) [] []).percentage = 0 :=
  ⟨by decide, (claim_C5_theorem (exOfId 1) [] []).1 (by decide)⟩

/-! ### Claim C6 -/

/-- C6: grading yields exactly one response per question of the exercise, in
order — the responses project back onto the question list — so a submission
for N questions always has exactly N response rows; and a question id absent
from the answers mapping is graded with the empty string as the student
answer (never an error). -/
theorem claim_C6_theorem (ex : Exercise) (all_answers : List Answer)
    (answers : List (Str × Str)) :
    ((gradeResponses ex all_answers answers).map (fun r => r.question)
      = ex.questions)
    ∧ (pySubmit ex all_answers answers).responses.length = ex.questions.length
    ∧ (∀ r ∈ gradeResponses ex all_answers answers,
        lookupAnswer answers (natToStr r.question.id) = none →
          r.student_answer = []) := by
  refine ⟨?_, ?_, ?_⟩
  · simp only [gradeResponses, List.map_map]
    exact List.map_id ex.questions
  · simp [pySubmit, gradeResponses]
  · intro r hr hmiss
    simp only [gradeResponses, List.mem_map] at hr
    obtain ⟨q, hq, rfl⟩ := hr
    simp only at hmiss ⊢
    rw [hmiss]
    rfl

/-- C6 witness: grading a one-question exercise with an empty answers mapping
still yields its response row, carrying the empty string. -/
theorem claim_C6_witness :
    (⟨fbQuestion1, [], false, 0⟩ : ResponseData)
        ∈ gradeResponses exOneQuestion [] []
    ∧ (⟨fbQuestion1, [], false, 0⟩ : ResponseData).student_answer = [] :=
  ⟨by decide,
    (claim_C6_theorem exOneQuestion [] []).2.2 ⟨fbQuestion1, [], false, 0⟩
      (by decide) (by decide)⟩

/-! ### Claim C7 -/

/-- C7 fails on the code: the view runs in autocommit mode (no
`transaction.atomic`, no `ATOMIC_REQUESTS`), so for a one-question exercise
the state persisted after the first of the two writes — the
`ExerciseSubmission` create, before its `QuestionResponse` create — is
neither empty nor complete: a reachable, externally observable partial
submission. -/
theorem claim_C7_counterexample :
    1 < (submitWrites exOneQuestion [] [] 7 0).length
    ∧ persistedAfter (submitWrites exOneQuestion [] [] 7 0) 1 ≠ []
    ∧ persistedAfter (submitWrites exOneQuestion [] [] 7 0) 1
        ≠ submitWrites exOneQuestion [] [] 7 0 := by
  decide

/-- C7 (amended): a grading call persists its rows sequentially, not
atomically — the full run performs exactly `N + 1` writes (one Submission,
then one QuestionResponse per question), a failure-free run persists all of
them, and a persistence failure after `k` writes with `0 < k < N + 1` leaves
a partial state that is neither none nor all of the writes, and is
externally observable. -/
theorem claim_C7_theorem (ex : Exercise) (all_answers : List Answer)
    (answers : List (Str × Str)) (student : Nat) (time_spent : Int) :
    (submitWrites ex all_answers answers student time_spent).length
      = ex.questions.length + 1
    ∧ persistedAfter (submitWrites ex all_answers answers student time_spent)
        (submitWrites ex all_answers answers student time_spent).length
      = submitWrites ex all_answers answers student time_spent
    ∧ (∀ k, 0 < k →
        k < (submitWrites ex all_answers answers student time_spent).length →
        persistedAfter (submitWrites ex all_answers answers student time_spent) k
            ≠ []
          ∧ persistedAfter (submitWrites ex all_answers answers student time_spent) k
            ≠ submitWrites ex all_answers answers student time_spent) := by
  refine ⟨?_, List.take_length _, ?_⟩
  · simp [submitWrites, pySubmit, gradeResponses]
  · intro k hk hlt
    constructor
    · cases k with
      | zero => omega
      | succ m => simp [submitWrites, persistedAfter]
    · intro heq
      have hlen := congrArg List.length heq
      rw [persistedAfter, List.length_take] at hlen
      omega

/-- C7 witness: for the one-question exercise, failing after the first write
leaves a nonempty, incomplete persisted state. -/
theorem claim_C7_witness :
    persistedAfter (submitWrites exOneQuestion [] [] 9 0) 1 ≠ []
    ∧ persistedAfter (submitWrites exOneQuestion [] [] 9 0) 1
        ≠ submitWrites exOneQuestion [] [] 9 0 :=
  (claim_C7_theorem exOneQuestion [] [] 9 0).2.2 1 (by decide) (by decide)

/-! ### Claim C9 -/

/-- C9: the progress update is idempotent — running `_update_progress` a
second time, with the same exercise table and submission history, on the row
produced by the first run returns that row unchanged, whatever the current
time of the second run. -/
theorem claim_C9_theorem (all_exercises : List Exercise)
    (submissions : List ExerciseSubmission) (student unit : Nat)
    (existing : Option StudentProgress) (now1 now2 : Nat) :
    updateProgress all_exercises submissions student unit
        (some (updateProgress all_exercises submissions student unit
          existing now1)) now2
      = updateProgress all_exercises submissions student unit existing now1 := by
  unfold updateProgress getOrCreateProgress
  generalize Option.getD existing ⟨student, unit, 0, now1, none⟩ = p0
  by_cases h0 : totalExercises all_exercises unit = 0
  · simp [h0]
  · simp only [h0, if_false, Option.getD_some]
    by_cases hp : completedExercises submissions student unit * 100
        / totalExercises all_exercises unit = 100
    · cases hc : p0.completed_at <;> simp [hp, hc]
    · simp [hp]

/-! ### Claim C8 -/

/-- Every entry validated by `validateAnswersList` carries a value that
`CharField` accepts: a non-blank string or an int. -/
lemma validateAnswersList_all_acceptable (entries : List (Str × JsonVal)) :
    ∀ l, validateAnswersList entries = some l →
      ∀ p ∈ entries, isCharAcceptable p.2 = true := by
  induction entries with
  | nil =>
    intro l _ p hp
    cases hp
  | cons e rest ih =>
    intro l h p hp
    rw [validateAnswersList] at h
    cases hc : validateCharField e.2 with
    | none => rw [hc] at h; cases h
    | some s =>
      cases hr : validateAnswersList rest with
      | none => rw [hc, hr] at h; cases h
      | some l0 =>
        rcases List.mem_cons.mp hp with rfl | hpt
        · cases hv : p.2 with
          | str s0 =>
            rw [hv, validateCharField] at hc
            by_cases hb : pyStrip s0 = []
            · rw [if_pos hb] at hc
              cases hc
            · simp [isCharAcceptable, hb]
          | int n => rfl
          | dict d => rw [hv] at hc; cases hc
          | list items => rw [hv] at hc; cases hc
          | bool b => rw [hv] at hc; cases hc
          | null => rw [hv] at hc; cases hc
        · exact ih l0 hr p hpt

/-- A value that is not a mapping to `CharField`-acceptable values fails the
answers field. -/
lemma validateAnswers_none_of_not_acceptable {v : JsonVal}
    (h : isAcceptableMapping v = false) : validateAnswers v = none := by
  cases hv : validateAnswers v with
  | none => rfl
  | some l =>
    exfalso
    cases v with
    | dict entries =>
      rw [isAcceptableMapping] at h
      have hall : (entries.all fun p => isCharAcceptable p.2) = true :=
        List.all_eq_true.mpr fun p hp => by
          rw [validateAnswers] at hv
          exact validateAnswersList_all_acceptable entries l hv p hp
      rw [hall] at h
      cases h
    | str s => cases hv
    | int n => cases hv
    | list items => cases hv
    | bool b => cases hv
    | null => cases hv

/-- C8 (amended): validation fails — before any grading work or database
write — whenever the answers payload is not a JSON object each of whose
values `CharField` accepts (a string non-blank after stripping, or a numeric
value, which is coerced to its decimal string), or whenever `time_spent` is
present but not acceptable to the integer field (an integer, or a string
that `int` parses after a trailing `.0...` decimal suffix is stripped); a
failed validation makes the endpoint produce nothing.  A present but
*negative* integer `time_spent` is accepted (the field has no minimum), and
a numeric answers value is accepted and coerced, both contrary to the
original claim. -/
theorem claim_C8_theorem (exercise_ids : List Nat) (p : SubmissionPayload) :
    (∀ av, p.answers = some av → isAcceptableMapping av = false →
      validatePayload exercise_ids p = none)
    ∧ (∀ tv, p.time_spent = some tv → validateIntegerField tv = none →
        validatePayload exercise_ids p = none)
    ∧ (∀ exercises all_answers student,
        validatePayload (exercises.map fun e => e.id) p = none →
          submitEndpoint exercises all_answers student p = none) := by
  refine ⟨?_, ?_, ?_⟩
  · intro av hav hbad
    unfold validatePayload
    cases hpe : p.exercise_id with
    | none => simp only [hpe]
    | some ev =>
      simp only [hpe]
      cases hev : validateIntegerField ev with
      | none => simp only [hev]
      | some eid =>
        simp only [hev]
        by_cases hin : exercise_ids.contains eid.toNat = true ∧ 0 ≤ eid
        · rw [if_pos hin]
          simp only [hav, validateAnswers_none_of_not_acceptable hbad]
        · rw [if_neg hin]
  · intro tv htv hbadtv
    unfold validatePayload
    cases hpe : p.exercise_id with
    | none => simp only [hpe]
    | some ev =>
      simp only [hpe]
      cases hev : validateIntegerField ev with
      | none => simp only [hev]
      | some eid =>
        simp only [hev]
        by_cases hin : exercise_ids.contains eid.toNat = true ∧ 0 ≤ eid
        · rw [if_pos hin]
          cases hpa : p.answers with
          | none => simp only [hpa]
          | some av =>
            simp only [hpa]
            cases hav : validateAnswers av with
            | none => simp only [hav]
            | some ans => simp only [hav, htv, hbadtv]
        · rw [if_neg hin]
  · intro exercises all_answers student h
    unfold submitEndpoint
    rw [h]

/-- C8 fails on the code at both of its "whenever" disjuncts: the payload
with a valid exercise id, an empty answers dict and `time_spent = -5` passes
validation (the integer field has no `min_value`) and the endpoint goes on to
grade and write, where the claim requires a `ValidationError`; and the
payload whose answers dict maps `"1"` to the *integer* 5 — not a mapping of
question-id to string — also passes validation, the value coerced to the
string `"5"`. -/
theorem claim_C8_counterexample :
    validatePayload [1] payloadNegative = some ⟨1, [], some (-5)⟩
    ∧ ((-5 : Int) < 0)
    ∧ submitEndpoint [exOfId 1] [] 7 payloadNegative ≠ none
    ∧ isStringMapping (JsonVal.dict [(toStr "1", JsonVal.int 5)]) = false
    ∧ validatePayload [1] payloadIntAnswer
        = some ⟨1, [(toStr "1", toStr "5")], none⟩ := by
  refine ⟨by decide, by decide, ?_, by decide, by decide⟩
  decide

/-- C8 witness: a present non-integer `time_spent` (the string `"abc"`)
fails validation. -/
theorem claim_C8_witness : validatePayload [1] payloadBadTime = none :=
  (claim_C8_theorem [1] payloadBadTime).2.1 (JsonVal.str (toStr "abc")) rfl
    (by decide)

/-! ### Claim C10 -/

/-- In a list sorted by the `order` field, the first flagged-correct element
found has an `order` no greater than that of any flagged-correct element. -/
lemma find?_correct_order_min (l : List Answer) :
    l.Pairwise (fun x y => x.order ≤ y.order) →
      ∀ a, l.find? (fun x => x.is_correct) = some a →
        ∀ b ∈ l, b.is_correct = true → a.order ≤ b.order := by
  induction l with
  | nil =>
    intro _ a ha
    cases ha
  | cons c t ih =>
    intro hl a ha b hb hbc
    rw [List.pairwise_cons] at hl
    obtain ⟨hcall, htail⟩ := hl
    by_cases hcc : c.is_correct = true
    · rw [List.find?_cons_of_pos _ hcc] at ha
      obtain rfl := Option.some.inj ha
      rcases List.mem_cons.mp hb with rfl | hbt
      · exact le_refl _
      · exact hcall b hbt
    · rw [List.find?_cons_of_neg _ (by simpa using hcc)] at ha
      rcases List.mem_cons.mp hb with rfl | hbt
      · exact absurd hbc hcc
      · exact ih htail a ha b hbt hbc

/-- C10: with the question's options listed in the model's order-by-`order`
(the `Answer` queryset's default ordering), a true-false question with no
flagged-correct option grades incorrect, and otherwise the student answer is
compared case-insensitively against the text of the first flagged-correct
option, which is flagged correct, belongs to the question, and has an
`order` value no greater than that of every other flagged-correct option. -/
theorem claim_C10_theorem (q : Question) (s : Str)
    (hsorted : q.answers.Pairwise fun x y => x.order ≤ y.order) :
    (q.answers.find? (fun a => a.is_correct) = none →
      check_true_false q s = false)
    ∧ ∀ a, q.answers.find? (fun a => a.is_correct) = some a →
        check_true_false q s = (pyLower s == pyLower a.answer_text)
        ∧ a ∈ q.answers ∧ a.is_correct = true
        ∧ ∀ b ∈ q.answers, b.is_correct = true → a.order ≤ b.order := by
  constructor
  · intro h
    unfold check_true_false
    rw [h]
  · intro a ha
    refine ⟨?_, List.mem_of_find?_eq_some ha, List.find?_some ha,
      find?_correct_order_min q.answers hsorted a ha⟩
    unfold check_true_false
    rw [ha]

/-- C10 witness: `tfQuestion` has two flagged-correct options, `"True"`
(order 0) and `"False"` (order 1); the student answer `"true"` is graded
against the text of the first one under the order field. -/
theorem claim_C10_witness :
    check_true_false tfQuestion (toStr "true")
        = (pyLower (toStr "true") == pyLower (toStr "True"))
    ∧ (⟨1, toStr "True", true, 0⟩ : Answer) ∈ tfQuestion.answers
    ∧ (⟨1, toStr "True", true, 0⟩ : Answer).is_correct = true
    ∧ ∀ b ∈ tfQuestion.answers, b.is_correct = true →
        (⟨1, toStr "True", true, 0⟩ : Answer).order ≤ b.order :=
  (claim_C10_theorem tfQuestion (toStr "true") (by decide)).2
    ⟨1, toStr "True", true, 0⟩ (by decide)
